import Mathlib

/-!
Shallow embedding of the PlanetaryComputerExamples notebooks.

The repository consists of three Jupyter notebooks that issue HTTP requests to
the Planetary Computer STAC and data APIs and feed the JSON responses into map
widgets.  Each notebook cell is embedded as a function from a variable store to
a pair of the list of HTTP requests the cell issues and an `Except` result:
a Python exception (failed request, `KeyError`, `IndexError`, `NameError`)
short-circuits the cell, and the store records the values of the notebook-level
variable bindings.  Remote responses are supplied by an environment record, one
field per call site, and library calls with no observable effect on the claims
(shapely centroids) are passed in as opaque functions.
-/

set_option linter.unusedVariables false

set_option maxRecDepth 16384

/-- A Python exception as it can arise in these notebooks. -/
inductive PyError
  | httpError (msg : String)
  | keyError (key : String)
  | indexError (i : Nat)
  | nameError (name : String)
deriving Repr, DecidableEq

/-- HTTP verb used by the `requests` calls in the notebooks. -/
inductive Method
  | get
  | post
deriving Repr, DecidableEq

/-- A GeoJSON polygon geometry: a list of rings of (x, y) coordinate pairs. -/
abbrev Geom := List (List (Rat × Rat))

/-- The search parameters posted to the mosaic register endpoint
(`search.get_parameters()` in the notebook). -/
structure SearchParams where
  collections : String
  intersects : Geom
  query : List (String × List (String × String))
deriving Repr, DecidableEq

/-- One HTTP request issued by a notebook cell: verb, URL (as written in the
source, including any query string built into it), the `params` keyword of
`requests.get` when used, and the JSON body of a POST when used. -/
structure HttpRequest where
  method : Method
  url : String
  params : List (String × String) := []
  body : Option SearchParams := none
deriving Repr, DecidableEq

/-- A STAC asset: an `href` and an optional title. -/
structure Asset where
  href : String
  title : Option String := none
deriving Repr, DecidableEq

/-- A STAC item as the notebooks use it: identifier, collection id, bounding
box, geometry, named assets, properties, and datetime. -/
structure StacItem where
  id : String
  collection_id : String
  bbox : List Rat
  geometry : Geom
  assets : List (String × Asset)
  properties : List (String × String) := []
  datetime : String := ""
deriving Repr, DecidableEq

/-- A TileJSON response object, with the fields shown in the notebook output. -/
structure TileJSON where
  tilejson : String
  version : String
  scheme : String
  tiles : List String
  minzoom : Int
  maxzoom : Int
  bounds : List Rat
  center : List Rat
deriving Repr, DecidableEq

/-- One entry of the `links` list of a mosaic registration response. -/
structure MosaicLink where
  rel : String
  type : String
  href : String
deriving Repr, DecidableEq

/-- The JSON object returned by POSTing to the mosaic register endpoint. -/
structure RegisterResponse where
  searchid : String
  links : List MosaicLink
deriving Repr, DecidableEq

/-- One render-options record of the mosaic info response. -/
structure RenderOption where
  name : String
  description : String
  options : String
  minZoom : Int
deriving Repr, DecidableEq

/-- The mosaic info response: a list of render options. -/
structure MosaicInfo where
  renderOptions : List RenderOption
deriving Repr, DecidableEq

/-- A `pystac_client` search object as constructed by `catalog.search` in the
data-api notebook; constructing it issues no HTTP request. -/
structure PystacSearch where
  intersects : Geom
  collections : String
  query : List (String × List (String × String))
deriving Repr, DecidableEq

/-- `search.get_parameters()`: the parameters the search was built from. -/
def getParameters (s : PystacSearch) : SearchParams :=
  { collections := s.collections, intersects := s.intersects, query := s.query }

/-- A `folium.TileLayer`: the tile URL template it was handed, its attribution,
and its optional minimum zoom. -/
structure TileLayerSpec where
  tiles : String
  attr : String
  minZoom : Option Int := none
deriving Repr, DecidableEq

/-- A `folium.Map` with the layers and GeoJSON overlays added to it. -/
structure FoliumMap where
  location : Rat × Rat
  zoomStart : Int
  baseTiles : String
  attr : String
  layers : List TileLayerSpec := []
  geojsons : List Geom := []
deriving Repr, DecidableEq

/-- Python dict lookup on an association list (keys are unique). -/
def pyDictGet? {K V : Type} [DecidableEq K] (d : List (K × V)) (k : K) : Option V :=
  (d.find? (fun p => decide (p.1 = k))).map (fun p => p.2)

/-- Python dict insertion: overwrite in place if the key is present, else
append, preserving insertion order. -/
def pyDictInsert {K V : Type} [DecidableEq K] (d : List (K × V)) (k : K) (v : V) :
    List (K × V) :=
  if d.any (fun p => decide (p.1 = k)) then
    d.map (fun p => if p.1 = k then (k, v) else p)
  else d ++ [(k, v)]

/-- Build a Python dict from a list of key/value pairs, later pairs winning. -/
def pyDictOf {K V : Type} [DecidableEq K] (ps : List (K × V)) : List (K × V) :=
  ps.foldl (fun d p => pyDictInsert d p.1 p.2) []

/-- The variable store of the data-api notebook (`part_000`). -/
structure NbState where
  item : Option StacItem := none
  r : Option TileJSON := none
  tiles : Option String := none
  m : Option FoliumMap := none
  aoi : Option Geom := none
  search : Option PystacSearch := none
  registered : Option RegisterResponse := none
  tilejson_url : Option String := none
  mosaic_info : Option MosaicInfo := none
  render_config : Option RenderOption := none
deriving Repr, DecidableEq

/-- The remote responses observed by the data-api notebook, one per call site. -/
structure DataApiEnv where
  itemResp : Except PyError StacItem
  itemTilejsonResp : Except PyError TileJSON
  registerResp : Except PyError RegisterResponse
  infoResp : Except PyError MosaicInfo
  mosaicTilejsonResp : Except PyError TileJSON

def stacItemUrl : String :=
  "https://planetarycomputer.microsoft.com/api/stac/v1/collections/sentinel-2-l2a/items/S2B_MSIL2A_20220606T080609_R078_T36PUR_20220606T193343"

def registerUrl : String :=
  "https://planetarycomputer.microsoft.com/api/data/v1/mosaic/register"

def mosaicInfoUrl : String :=
  "https://planetarycomputer.microsoft.com/api/data/v1/mosaic/info"

def basemapUrl : String :=
  "https://server.arcgisonline.com/ArcGIS/rest/services/World_Shaded_Relief/MapServer/tile/\x7bz\x7d/\x7by\x7d/\x7bx\x7d"

def esriAttr : String := "Basemap &copy; Esri &mdash; Source: Esri"

def pcAttr : String := "Planetary Computer"

/-- Cell 2 of the data-api notebook: fetch the item JSON, parse it, and look up
its rendered preview asset. -/
def cellFetchItem (env : DataApiEnv) (s : NbState) :
    List HttpRequest × Except PyError NbState :=
  ([{ method := .get, url := stacItemUrl }],
   match env.itemResp with
   | .error e => .error e
   | .ok it =>
     match pyDictGet? it.assets "rendered_preview" with
     | none => .error (.keyError "rendered_preview")
     | some _ => .ok { s with item := some it })

/-- Cell 3: display the preview image; only reads the item, no request in the
notebook process. -/
def cellDisplayPreview (s : NbState) : List HttpRequest × Except PyError NbState :=
  ([],
   match s.item with
   | none => .error (.nameError "item")
   | some it =>
     match pyDictGet? it.assets "rendered_preview" with
     | none => .error (.keyError "rendered_preview")
     | some _ => .ok s)

/-- Cell 4: print the tilejson asset href; only reads the item. -/
def cellShowTilejsonHref (s : NbState) : List HttpRequest × Except PyError NbState :=
  ([],
   match s.item with
   | none => .error (.nameError "item")
   | some it =>
     match pyDictGet? it.assets "tilejson" with
     | none => .error (.keyError "tilejson")
     | some _ => .ok s)

/-- Cell 5: `r = requests.get(item.assets["tilejson"].href).json()`. -/
def cellFetchTilejson (env : DataApiEnv) (s : NbState) :
    List HttpRequest × Except PyError NbState :=
  match s.item with
  | none => ([], .error (.nameError "item"))
  | some it =>
    match pyDictGet? it.assets "tilejson" with
    | none => ([], .error (.keyError "tilejson"))
    | some a =>
      ([{ method := .get, url := a.href }],
       match env.itemTilejsonResp with
       | .error e => .error e
       | .ok tj => .ok { s with r := some tj })

/-- Cell 6: `tiles = r["tiles"][0]`. -/
def cellTilesBind (s : NbState) : List HttpRequest × Except PyError NbState :=
  ([],
   match s.r with
   | none => .error (.nameError "r")
   | some tj =>
     match tj.tiles[0]? with
     | none => .error (.indexError 0)
     | some t => .ok { s with tiles := some t })

/-- Cell 7: compute the map center from the item bounding box, build the map,
and add a tile layer with the template bound in cell 6. -/
def cellItemMap (s : NbState) : List HttpRequest × Except PyError NbState :=
  ([],
   match s.item with
   | none => .error (.nameError "item")
   | some it =>
     match it.bbox with
     | b0 :: b1 :: b2 :: b3 :: _ =>
       match s.tiles with
       | none => .error (.nameError "tiles")
       | some t =>
         let center : Rat × Rat := ((b1 + b3) / 2, (b0 + b2) / 2)
         let m0 : FoliumMap :=
           { location := center, zoomStart := 11, baseTiles := basemapUrl, attr := esriAttr }
         let m1 : FoliumMap :=
           { m0 with layers := m0.layers ++ [{ tiles := t, attr := pcAttr }] }
         .ok { s with m := some m1 }
     | _ => .error (.indexError 3))

/-- The area of interest polygon of the mosaic example. -/
def aoiGeom : Geom :=
  [[(29.036865234375, 7.857940257224196),
    (31.4813232421875, 7.857940257224196),
    (31.4813232421875, 10.055402736564236),
    (29.036865234375, 10.055402736564236),
    (29.036865234375, 7.857940257224196)]]

/-- Cell 8: bind the area of interest and construct the search object; no
request is issued by constructing the search. -/
def cellSearch (s : NbState) : List HttpRequest × Except PyError NbState :=
  ([],
   .ok { s with
          aoi := some aoiGeom,
          search := some
            { intersects := aoiGeom,
              collections := "sentinel-2-l2a",
              query := [("eo:cloud_cover", [("lt", "10")])] } })

/-- Cell 9: POST the search parameters to the mosaic register endpoint. -/
def cellRegister (env : DataApiEnv) (s : NbState) :
    List HttpRequest × Except PyError NbState :=
  match s.search with
  | none => ([], .error (.nameError "search"))
  | some sr =>
    ([{ method := .post, url := registerUrl, body := some (getParameters sr) }],
     match env.registerResp with
     | .error e => .error e
     | .ok reg => .ok { s with registered := some reg })

/-- Cell 10: `tilejson_url = registered["links"][1]["href"]`. -/
def cellTilejsonUrl (s : NbState) : List HttpRequest × Except PyError NbState :=
  ([],
   match s.registered with
   | none => .error (.nameError "registered")
   | some reg =>
     match reg.links[1]? with
     | none => .error (.indexError 1)
     | some l => .ok { s with tilejson_url := some l.href })

/-- Cell 11: GET the mosaic info endpoint for the collection of the item and
take the first render option. -/
def cellMosaicInfo (env : DataApiEnv) (s : NbState) :
    List HttpRequest × Except PyError NbState :=
  match s.item with
  | none => ([], .error (.nameError "item"))
  | some it =>
    ([{ method := .get, url := mosaicInfoUrl, params := [("collection", it.collection_id)] }],
     match env.infoResp with
     | .error e => .error e
     | .ok info =>
       match info.renderOptions[0]? with
       | none => .error (.indexError 0)
       | some rc => .ok { s with mosaic_info := some info, render_config := some rc })

/-- Cell 12: GET the TileJSON at the link href with the collection id and the
render options spliced into the query string, then take `tiles[0]`. -/
def cellMosaicTiles (env : DataApiEnv) (s : NbState) :
    List HttpRequest × Except PyError NbState :=
  match s.tilejson_url, s.item, s.render_config with
  | some u, some it, some rc =>
    ([{ method := .get,
        url := u ++ "?collection=" ++ it.collection_id ++ "&" ++ rc.options }],
     match env.mosaicTilejsonResp with
     | .error e => .error e
     | .ok tj =>
       match tj.tiles[0]? with
       | none => .error (.indexError 0)
       | some t => .ok { s with tiles := some t })
  | none, _, _ => ([], .error (.nameError "tilejson_url"))
  | _, none, _ => ([], .error (.nameError "item"))
  | _, _, none => ([], .error (.nameError "render_config"))

/-- Cell 13: build the mosaic map centered on the centroid of the area of
interest, add the tile layer with the template from cell 12 and the minimum
zoom from the render option, and add the GeoJSON overlay.  The shapely
centroid computation is passed in as an opaque function returning (x, y). -/
def cellMosaicMap (centroidOf : Geom → Rat × Rat) (s : NbState) :
    List HttpRequest × Except PyError NbState :=
  ([],
   match s.aoi, s.tiles, s.render_config with
   | some a, some t, some rc =>
     let c := centroidOf a
     let m0 : FoliumMap :=
       { location := (c.2, c.1), zoomStart := 9, baseTiles := basemapUrl, attr := esriAttr }
     let m1 : FoliumMap :=
       { m0 with layers := m0.layers ++ [{ tiles := t, attr := pcAttr, minZoom := some rc.minZoom }] }
     let m2 : FoliumMap := { m1 with geojsons := m1.geojsons ++ [a] }
     .ok { s with m := some m2 }
   | none, _, _ => .error (.nameError "aoi")
   | _, none, _ => .error (.nameError "tiles")
   | _, _, none => .error (.nameError "render_config"))

/-- Sequence two cells: an exception in the first stops execution, otherwise
the second runs on the updated store; request traces concatenate. -/
def seqCells (c1 c2 : NbState → List HttpRequest × Except PyError NbState)
    (s : NbState) : List HttpRequest × Except PyError NbState :=
  match c1 s with
  | (t1, .error e) => (t1, .error e)
  | (t1, .ok s1) =>
    match c2 s1 with
    | (t2, r2) => (t1 ++ t2, r2)

/-- The mosaic workflow: cells 9 to 13 of the data-api notebook, run in source
order. -/
def mosaicWorkflow (env : DataApiEnv) (centroidOf : Geom → Rat × Rat)
    (s : NbState) : List HttpRequest × Except PyError NbState :=
  seqCells (cellRegister env)
    (seqCells cellTilejsonUrl
      (seqCells (cellMosaicInfo env)
        (seqCells (cellMosaicTiles env) (cellMosaicMap centroidOf)))) s

/-- The widget objects of the interactive footprint browser (`part_001`):
the map, the GeoJSON layer, and the fetched STAC items. -/
inductive WidgetObj
  | mapObj
  | layerObj
  | itemObj
deriving Repr, DecidableEq

/-- The operations performed by the footprint browser cell, in source order:
the setup statements, then, for each dropdown selection, the body of the
`browse` callback. -/
inductive BrowserOp
  | createMap (zoom : Int)
  | setLayoutWidth (w : String)
  | createLayer
  | addLayerToMap
  | setMapCenter (it : StacItem)
  | setLayerData (it : StacItem)
  | printIdAndDatetime (it : StacItem)
deriving Repr, DecidableEq

/-- Which pre-existing widget object an operation mutates, if any.  Creating
an object is not a mutation of it; the callback reads the selected item but
writes only the map center and the layer data. -/
def mutatedObj : BrowserOp → Option WidgetObj
  | .setLayoutWidth _ => some .mapObj
  | .addLayerToMap => some .mapObj
  | .setMapCenter _ => some .mapObj
  | .setLayerData _ => some .layerObj
  | _ => none

/-- The body of the `browse` callback for one selected item: recenter the map
on the item centroid, set the layer data to the item geometry, print. -/
def browseBlock (it : StacItem) : List BrowserOp :=
  [.setMapCenter it, .setLayerData it, .printIdAndDatetime it]

/-- The setup statements of the browser cell, before any selection. -/
def browserSetup : List BrowserOp :=
  [.createMap 3, .setLayoutWidth "600px", .createLayer, .addLayerToMap]

/-- The callback invocations for a sequence of dropdown selections. -/
def browseOps : List StacItem → List BrowserOp
  | [] => []
  | it :: rest => browseBlock it ++ browseOps rest

/-- The full operation sequence of the browser cell for a given sequence of
dropdown selections. -/
def browserScript (selections : List StacItem) : List BrowserOp :=
  browserSetup ++ browseOps selections

/-- How many operations of a script mutate a given widget object. -/
def mutCount (t : WidgetObj) (ops : List BrowserOp) : Nat :=
  (ops.filter (fun op => decide (mutatedObj op = some t))).length

/-- A search object constructed by `catalog.search` in the Chesapeake
notebook: collections, bounding box, and datetime. -/
structure SearchObj where
  collections : List String
  bbox : List Rat
  datetime : String
deriving Repr, DecidableEq

def chesLatitude : Rat := 39.29

def chesLongitude : Rat := -76.61

def chesBuffer : Rat := 0.6

/-- The Chesapeake notebook bounding box around (latitude, longitude). -/
def chesBbox : List Rat :=
  [chesLongitude - chesBuffer, chesLatitude - chesBuffer,
   chesLongitude + chesBuffer, chesLatitude + chesBuffer]

/-- The datetimes list of the Chesapeake notebook. -/
def chesDatetimes : List String := ["2013"]

/-- The search object constructed in the loop iteration for one datetime. -/
def chesSearchFor (dt : String) : SearchObj :=
  { collections := ["chesapeake-lu"], bbox := chesBbox, datetime := dt }

/-- The value bound to the `items` variable of the Chesapeake notebook: first
an empty dict, later the list of items of the executed search. -/
inductive ItemsVal
  | emptyDict
  | itemList (l : List StacItem)
deriving Repr, DecidableEq

/-- The variable store of the Chesapeake notebook. -/
structure ChesState where
  items : Option ItemsVal := none
  search : Option SearchObj := none
  asset_href : Option String := none
  classmap : Option (List (String × List Nat)) := none
deriving Repr, DecidableEq

/-- The remote behavior observed by the Chesapeake notebook: the items each
executed search returns, and the legend classmap response. -/
structure ChesEnv where
  searchResults : SearchObj → List StacItem
  classmapResp : Except PyError (List (String × List Nat))

/-- The loop of the Chesapeake search cell: bind `items` to an empty dict,
then for each datetime rebind `search` to a freshly constructed search
object.  No search is executed inside the loop. -/
def chesLoopState (datetimes : List String) (s : ChesState) : ChesState :=
  datetimes.foldl (fun st dt => { st with search := some (chesSearchFor dt) })
    { s with items := some ItemsVal.emptyDict }

/-- The Chesapeake search cell: the loop, then
`items = list(search.get_items())`.  The first component of the result is the
list of search objects that were actually executed. -/
def chesItemsCell (env : ChesEnv) (datetimes : List String) (s : ChesState) :
    List SearchObj × Except PyError ChesState :=
  let s1 := chesLoopState datetimes s
  match s1.search with
  | none => ([], .error (.nameError "search"))
  | some sr =>
    ([sr], .ok { s1 with items := some (ItemsVal.itemList (env.searchResults sr)) })

/-- The Chesapeake cell binding `asset_href = items[0].assets["data"].href`;
it only reads `items`. -/
def chesAssetHrefCell (s : ChesState) : List HttpRequest × Except PyError ChesState :=
  ([],
   match s.items with
   | none => .error (.nameError "items")
   | some ItemsVal.emptyDict => .error (.keyError "0")
   | some (ItemsVal.itemList l) =>
     match l[0]? with
     | none => .error (.indexError 0)
     | some it =>
       match pyDictGet? it.assets "data" with
       | none => .error (.keyError "data")
       | some a => .ok { s with asset_href := some a.href })

def classmapUrl : String :=
  "https://pct-apis-staging.westeurope.cloudapp.azure.com/data/legend/classmap/chesapeake-lu"

/-- The Chesapeake cell fetching the legend classmap. -/
def chesClassmapCell (env : ChesEnv) (s : ChesState) :
    List HttpRequest × Except PyError ChesState :=
  ([{ method := .get, url := classmapUrl }],
   match env.classmapResp with
   | .error e => .error e
   | .ok cm => .ok { s with classmap := some cm })

/-- `class_names = {x["description"]: x["value"] for x in classes}`. -/
def class_names (classes : List (String × Nat)) : List (String × Nat) :=
  pyDictOf classes

/-- `class_values = {v: k for k, v in class_names.items()}`. -/
def class_values (classes : List (String × Nat)) : List (Nat × String) :=
  pyDictOf ((class_names classes).map (fun p => (p.2, p.1)))

/-- The colors of the ListedColormap: one per entry of the classmap dict. -/
def cmapColors (classmap : List (String × List Nat)) : List (List Nat) :=
  (pyDictOf classmap).map (fun p => p.2)

/-- `cmap.N`: the number of colors. -/
def cmapN (classmap : List (String × List Nat)) : Nat :=
  (cmapColors classmap).length

/-- `labels = [class_values.get(value, "nodata") for value in ticks]` with
`ticks = np.arange(cmap.N)`. -/
def chesLabels (classes : List (String × Nat)) (classmap : List (String × List Nat)) :
    List String :=
  (List.range (cmapN classmap)).map
    (fun t => (pyDictGet? (class_values classes) t).getD "nodata")

/-- The classification classes of the chesapeake-lu collection, as listed in
the notebook output: description and raster value. -/
def chesClasses : List (String × Nat) :=
  [("Impervious Roads", 1),
   ("Impervious Non-Roads", 2),
   ("Tree Canopy over Impervious Surfaces", 3),
   ("Water", 4),
   ("Tidal Wetlands", 5),
   ("Floodplain Wetlands", 6),
   ("Other Wetlands", 7),
   ("Forest", 8),
   ("Tree Canopy over Turf Grass", 9),
   ("Mixed Open", 10),
   ("Fractional Turf (small)", 11),
   ("Fractional Turf (medium)", 12),
   ("Fractional Turf (large)", 13),
   ("Fractional Impervious", 14),
   ("Turf Grass", 15),
   ("Cropland", 16),
   ("Pasture/Hay", 17)]

/-- The fetched classmap of the Chesapeake notebook, as shown in its output:
keys 0 to 17 and 255, each mapped to an RGBA color. -/
def chesClassmap : List (String × List Nat) :=
  [("0", [0, 0, 0, 0]),
   ("1", [0, 0, 0, 255]),
   ("2", [115, 0, 0, 255]),
   ("3", [85, 255, 0, 255]),
   ("4", [0, 112, 255, 255]),
   ("5", [0, 255, 197, 255]),
   ("6", [0, 230, 169, 255]),
   ("7", [0, 230, 169, 255]),
   ("8", [38, 115, 0, 255]),
   ("9", [170, 255, 0, 255]),
   ("10", [168, 112, 0, 255]),
   ("11", [255, 190, 232, 255]),
   ("12", [255, 190, 232, 255]),
   ("13", [255, 190, 232, 255]),
   ("14", [197, 0, 255, 255]),
   ("15", [255, 255, 115, 255]),
   ("16", [230, 152, 0, 255]),
   ("17", [230, 152, 0, 255]),
   ("255", [0, 0, 0, 0])]

/-- A string `sub` occurs as a contiguous substring of `s`. -/
def strContains (s sub : String) : Prop :=
  sub.data <:+: s.data

instance strContainsDec (s sub : String) : Decidable (strContains s sub) :=
  inferInstanceAs (Decidable (sub.data <:+: s.data))

/-- The tile URL placeholders. -/
def placeholderZXY : String := "\x7bz\x7d/\x7bx\x7d/\x7by\x7d"

def previewUrlRec : String :=
  "https://planetarycomputer.microsoft.com/api/data/v1/item/preview.png?collection=sentinel-2-l2a&item=S2B_MSIL2A_20220606T080609_R078_T36PUR_20220606T193343&assets=visual&asset_bidx=visual%7C1%2C2%2C3&nodata=0"

def tilejsonAssetUrlRec : String :=
  "https://planetarycomputer.microsoft.com/api/data/v1/item/tilejson.json?collection=sentinel-2-l2a&item=S2B_MSIL2A_20220606T080609_R078_T36PUR_20220606T193343&assets=visual&asset_bidx=visual%7C1%2C2%2C3&nodata=0"

def itemTilesTemplateRec : String :=
  "https://planetarycomputer.microsoft.com/api/data/v1/item/tiles/WebMercatorQuad/\x7bz\x7d/\x7bx\x7d/\x7by\x7d@1x?collection=sentinel-2-l2a&item=S2B_MSIL2A_20220606T080609_R078_T36PUR_20220606T193343&assets=visual&asset_bidx=visual%7C1%2C2%2C3&nodata=0"

/-- The sentinel-2 item of the data-api notebook, with the bounding box shown
in the recorded TileJSON output. -/
def itemRec : StacItem :=
  { id := "S2B_MSIL2A_20220606T080609_R078_T36PUR_20220606T193343",
    collection_id := "sentinel-2-l2a",
    bbox := [31.17569761, 8.95381176, 32.17948101, 9.95039568],
    geometry := [],
    assets := [("rendered_preview", { href := previewUrlRec }),
               ("tilejson", { href := tilejsonAssetUrlRec })] }

/-- The recorded TileJSON response for the single item. -/
def itemTilejsonRec : TileJSON :=
  { tilejson := "2.2.0", version := "1.0.0", scheme := "xyz",
    tiles := [itemTilesTemplateRec],
    minzoom := 0, maxzoom := 24,
    bounds := [31.17569761, 8.95381176, 32.17948101, 9.95039568],
    center := [31.67758931, 9.45210372, 0] }

def searchidRec : String := "3c377cdaf6bddee4f5379ee6707505fd"

def mosaicMetadataHrefRec : String :=
  "https://planetarycomputer.microsoft.com/api/data/v1/mosaic/3c377cdaf6bddee4f5379ee6707505fd/info"

def mosaicTilejsonHrefRec : String :=
  "https://planetarycomputer.microsoft.com/api/data/v1/mosaic/3c377cdaf6bddee4f5379ee6707505fd/tilejson.json"

/-- The recorded mosaic registration response. -/
def registeredRec : RegisterResponse :=
  { searchid := searchidRec,
    links := [{ rel := "metadata", type := "application/json", href := mosaicMetadataHrefRec },
              { rel := "tilejson", type := "application/json", href := mosaicTilejsonHrefRec }] }

def natColorOptionsRec : String :=
  "assets=B04&assets=B03&assets=B02&nodata=0&color_formula=Gamma RGB 3.2 Saturation 0.8 Sigmoidal RGB 25 0.35"

/-- The recorded first render option of the mosaic info response. -/
def renderOptionRec : RenderOption :=
  { name := "Natural color",
    description := "True color composite of visible bands (B04, B03, B02)",
    options := natColorOptionsRec,
    minZoom := 9 }

def mosaicInfoRec : MosaicInfo := { renderOptions := [renderOptionRec] }

def mosaicTilesTemplateRec : String :=
  "https://planetarycomputer.microsoft.com/api/data/v1/mosaic/tiles/3c377cdaf6bddee4f5379ee6707505fd/WebMercatorQuad/\x7bz\x7d/\x7bx\x7d/\x7by\x7d@1x?collection=sentinel-2-l2a&assets=B04&assets=B03&assets=B02&nodata=0&color_formula=Gamma+RGB+3.2+Saturation+0.8+Sigmoidal+RGB+25+0.35"

/-- The recorded mosaic TileJSON response (only its tiles list is shown in the
notebook; the remaining fields are nominal). -/
def mosaicTilejsonRec : TileJSON :=
  { tilejson := "2.2.0", version := "1.0.0", scheme := "xyz",
    tiles := [mosaicTilesTemplateRec],
    minzoom := 9, maxzoom := 24,
    bounds := [-180, -90, 180, 90],
    center := [0, 0, 0] }

/-- The environment with the responses recorded in the data-api notebook. -/
def envRec : DataApiEnv :=
  { itemResp := .ok itemRec,
    itemTilejsonResp := .ok itemTilejsonRec,
    registerResp := .ok registeredRec,
    infoResp := .ok mosaicInfoRec,
    mosaicTilejsonResp := .ok mosaicTilejsonRec }

/-- The shapely centroid of the recorded area of interest, read off the
recorded map center (x, y). -/
def centroidW : Geom → Rat × Rat :=
  fun _ => (30.25909423828125, 8.956671496894216)

/-- The search object constructed in cell 8 of the data-api notebook. -/
def searchRec : PystacSearch :=
  { intersects := aoiGeom,
    collections := "sentinel-2-l2a",
    query := [("eo:cloud_cover", [("lt", "10")])] }

/-- The variable store just before the mosaic workflow starts (after cells 2
to 8 of the data-api notebook). -/
def stateRec : NbState :=
  { item := some itemRec,
    r := some itemTilejsonRec,
    tiles := some itemTilesTemplateRec,
    aoi := some aoiGeom,
    search := some searchRec }

/-- An environment whose mosaic registration request fails. -/
def envFailRegister : DataApiEnv :=
  { envRec with registerResp := .error (.httpError "connection reset") }

/-- An environment whose item request fails. -/
def envFailItem : DataApiEnv :=
  { envRec with itemResp := .error (.httpError "connection reset") }

/-- A Chesapeake environment for witnesses: every executed search returns an
empty item list and the classmap request returns the recorded classmap. -/
def chesEnvW : ChesEnv :=
  { searchResults := fun _ => [],
    classmapResp := .ok chesClassmap }

/-- A Chesapeake environment whose classmap request fails. -/
def chesEnvFail : ChesEnv :=
  { chesEnvW with classmapResp := .error (.httpError "gateway timeout") }

/-- The first item of the footprint-browser dropdown, with the recorded
geometry abridged to its corner coordinates. -/
def browseItemRec : StacItem :=
  { id := "S2B_MSIL2A_20230401T001159_R059_T11XML_20230401T021155",
    collection_id := "sentinel-2-l2a",
    bbox := [-123.37811, 80.9292576, -119.52269, 81.9309989],
    geometry := [[(-120.014725, 81.9309989), (-119.52269, 80.9513654),
                  (-122.69284, 80.9292576), (-123.37811, 81.907481),
                  (-120.014725, 81.9309989)]],
    assets := [],
    datetime := "2023-04-01T00:11:59.024000+00:00" }

/-- The data-api variable store after cells 9 to 11 (registration done,
tilejson_url and render_config bound), used to exercise cell 12 alone. -/
def stateMidRec : NbState :=
  { stateRec with
     registered := some registeredRec,
     tilejson_url := some mosaicTilejsonHrefRec,
     mosaic_info := some mosaicInfoRec,
     render_config := some renderOptionRec }

/-- The empty Chesapeake store. -/
def chesState0 : ChesState := {}

/-- The Chesapeake store after the classmap cell ran on the empty store. -/
def chesStateClassmap : ChesState := { chesState0 with classmap := some chesClassmap }

theorem pyDictFold_eq {K V : Type} [DecidableEq K] (ps : List (K × V)) :
    ∀ acc : List (K × V), ((acc ++ ps).map Prod.fst).Nodup →
      ps.foldl (fun d p => pyDictInsert d p.1 p.2) acc = acc ++ ps := by
  induction ps with
  | nil => intro acc h; simp
  | cons p ps ih =>
    intro acc h
    have hk : p.1 ∉ acc.map Prod.fst := by
      intro hmem
      rw [List.map_append, List.nodup_append] at h
      exact h.2.2 hmem (by simp)
    have hany : acc.any (fun q => decide (q.1 = p.1)) = false := by
      rw [List.any_eq_false]
      intro q hq
      simp only [decide_eq_true_eq]
      intro hqe
      exact hk (hqe ▸ List.mem_map_of_mem Prod.fst hq)
    have hins : pyDictInsert acc p.1 p.2 = acc ++ [p] := by
      simp [pyDictInsert, hany]
    have h2 : (((acc ++ [p]) ++ ps).map Prod.fst).Nodup := by
      rw [List.append_assoc, List.singleton_append]
      exact h
    calc (p :: ps).foldl (fun d q => pyDictInsert d q.1 q.2) acc
        = ps.foldl (fun d q => pyDictInsert d q.1 q.2) (pyDictInsert acc p.1 p.2) := rfl
      _ = ps.foldl (fun d q => pyDictInsert d q.1 q.2) (acc ++ [p]) := by rw [hins]
      _ = (acc ++ [p]) ++ ps := ih (acc ++ [p]) h2
      _ = acc ++ p :: ps := by simp

theorem pyDictOf_eq_self {K V : Type} [DecidableEq K] (ps : List (K × V))
    (h : (ps.map Prod.fst).Nodup) : pyDictOf ps = ps := by
  simpa [pyDictOf] using pyDictFold_eq ps [] (by simpa using h)

theorem pyDictGet?_of_mem {K V : Type} [DecidableEq K] (l : List (K × V)) (k : K) (v : V)
    (hnd : (l.map Prod.fst).Nodup) (hm : (k, v) ∈ l) :
    pyDictGet? l k = some v := by
  induction l with
  | nil => cases hm
  | cons q l ih =>
    rw [List.map_cons, List.nodup_cons] at hnd
    rcases List.mem_cons.mp hm with h1 | h1
    · rw [pyDictGet?, ← h1, List.find?_cons_of_pos _ (by simp)]
      rfl
    · have hne : ¬ q.1 = k := by
        intro he
        exact hnd.1 (he ▸ List.mem_map_of_mem Prod.fst h1)
      rw [pyDictGet?, List.find?_cons_of_neg _ (by simpa using hne)]
      exact ih hnd.2 h1

theorem pyDictGet?_eq_none {K V : Type} [DecidableEq K] (l : List (K × V)) (k : K)
    (h : ∀ p ∈ l, p.1 ≠ k) : pyDictGet? l k = none := by
  rw [pyDictGet?, List.find?_eq_none.mpr]
  · rfl
  · intro p hp
    simpa using h p hp

theorem strContains_append_left {a b h : String} (hc : strContains a h) :
    strContains (a ++ b) h := by
  obtain ⟨p, q, hpq⟩ := hc
  refine ⟨p, q ++ b.data, ?_⟩
  have hd : (a ++ b).data = a.data ++ b.data := rfl
  rw [hd, ← hpq]
  simp

theorem mutCount_append (t : WidgetObj) (a b : List BrowserOp) :
    mutCount t (a ++ b) = mutCount t a + mutCount t b := by
  simp [mutCount, List.filter_append]

theorem mutCount_block_map (it : StacItem) :
    mutCount WidgetObj.mapObj (browseBlock it) = 1 := rfl

theorem mutCount_block_layer (it : StacItem) :
    mutCount WidgetObj.layerObj (browseBlock it) = 1 := rfl

theorem mutCount_block_item (it : StacItem) :
    mutCount WidgetObj.itemObj (browseBlock it) = 0 := rfl

theorem mutCount_browseOps (sel : List StacItem) :
    mutCount WidgetObj.mapObj (browseOps sel) = sel.length ∧
    mutCount WidgetObj.layerObj (browseOps sel) = sel.length ∧
    mutCount WidgetObj.itemObj (browseOps sel) = 0 := by
  induction sel with
  | nil => exact ⟨rfl, rfl, rfl⟩
  | cons it rest ih =>
    refine ⟨?_, ?_, ?_⟩ <;>
      simp [browseOps, mutCount_append, mutCount_block_map, mutCount_block_layer,
        mutCount_block_item, ih.1, ih.2.1, ih.2.2, Nat.add_comm]

theorem cellTilesBind_ok (s s' : NbState) (h : (cellTilesBind s).2 = .ok s') :
    ∃ tj t, s.r = some tj ∧ tj.tiles[0]? = some t ∧ s' = { s with tiles := some t } := by
  cases hr : s.r with
  | none => simp [cellTilesBind, hr] at h
  | some tj =>
    cases ht : tj.tiles[0]? with
    | none => simp [cellTilesBind, hr, ht] at h
    | some t =>
      simp only [cellTilesBind, hr, ht, Except.ok.injEq] at h
      exact ⟨tj, t, rfl, ht, h.symm⟩

theorem cellFetchItem_ok (env : DataApiEnv) (s s' : NbState)
    (h : (cellFetchItem env s).2 = .ok s') :
    ∃ it, env.itemResp = .ok it ∧ s' = { s with item := some it } := by
  cases he : env.itemResp with
  | error e => simp [cellFetchItem, he] at h
  | ok it =>
    cases ha : pyDictGet? it.assets "rendered_preview" with
    | none => simp [cellFetchItem, he, ha] at h
    | some a =>
      simp only [cellFetchItem, he, ha, Except.ok.injEq] at h
      exact ⟨it, rfl, h.symm⟩

theorem cellDisplayPreview_ok (s s' : NbState)
    (h : (cellDisplayPreview s).2 = .ok s') : s' = s := by
  cases hi : s.item with
  | none => simp [cellDisplayPreview, hi] at h
  | some it =>
    cases ha : pyDictGet? it.assets "rendered_preview" with
    | none => simp [cellDisplayPreview, hi, ha] at h
    | some a =>
      simp only [cellDisplayPreview, hi, ha, Except.ok.injEq] at h
      exact h.symm

theorem cellShowTilejsonHref_ok (s s' : NbState)
    (h : (cellShowTilejsonHref s).2 = .ok s') : s' = s := by
  cases hi : s.item with
  | none => simp [cellShowTilejsonHref, hi] at h
  | some it =>
    cases ha : pyDictGet? it.assets "tilejson" with
    | none => simp [cellShowTilejsonHref, hi, ha] at h
    | some a =>
      simp only [cellShowTilejsonHref, hi, ha, Except.ok.injEq] at h
      exact h.symm

theorem cellFetchTilejson_ok (env : DataApiEnv) (s s' : NbState)
    (h : (cellFetchTilejson env s).2 = .ok s') :
    ∃ tj, env.itemTilejsonResp = .ok tj ∧ s' = { s with r := some tj } := by
  cases hi : s.item with
  | none => simp [cellFetchTilejson, hi] at h
  | some it =>
    cases ha : pyDictGet? it.assets "tilejson" with
    | none => simp [cellFetchTilejson, hi, ha] at h
    | some a =>
      cases he : env.itemTilejsonResp with
      | error e => simp [cellFetchTilejson, hi, ha, he] at h
      | ok tj =>
        simp only [cellFetchTilejson, hi, ha, he, Except.ok.injEq] at h
        exact ⟨tj, rfl, h.symm⟩

theorem cellItemMap_ok (s s' : NbState) (h : (cellItemMap s).2 = .ok s') :
    ∃ mv, s' = { s with m := some mv } := by
  cases hi : s.item with
  | none => simp [cellItemMap, hi] at h
  | some it =>
    match hb : it.bbox with
    | [] => simp [cellItemMap, hi, hb] at h
    | [b0] => simp [cellItemMap, hi, hb] at h
    | [b0, b1] => simp [cellItemMap, hi, hb] at h
    | [b0, b1, b2] => simp [cellItemMap, hi, hb] at h
    | b0 :: b1 :: b2 :: b3 :: rest =>
      cases ht : s.tiles with
      | none => simp [cellItemMap, hi, hb, ht] at h
      | some t =>
        simp only [cellItemMap, hi, hb, ht, Except.ok.injEq] at h
        exact ⟨_, h.symm⟩

theorem cellSearch_ok (s s' : NbState) (h : (cellSearch s).2 = .ok s') :
    s' = { s with aoi := some aoiGeom, search := some searchRec } := by
  simp only [cellSearch, Except.ok.injEq] at h
  exact h.symm

theorem cellRegister_ok (env : DataApiEnv) (s s' : NbState)
    (h : (cellRegister env s).2 = .ok s') :
    ∃ reg, env.registerResp = .ok reg ∧ s' = { s with registered := some reg } := by
  cases hs : s.search with
  | none => simp [cellRegister, hs] at h
  | some sr =>
    cases he : env.registerResp with
    | error e => simp [cellRegister, hs, he] at h
    | ok reg =>
      simp only [cellRegister, hs, he, Except.ok.injEq] at h
      exact ⟨reg, rfl, h.symm⟩

theorem cellTilejsonUrl_ok (s s' : NbState) (h : (cellTilejsonUrl s).2 = .ok s') :
    ∃ reg l, s.registered = some reg ∧ reg.links[1]? = some l ∧
      s' = { s with tilejson_url := some l.href } := by
  cases hr : s.registered with
  | none => simp [cellTilejsonUrl, hr] at h
  | some reg =>
    cases hl : reg.links[1]? with
    | none => simp [cellTilejsonUrl, hr, hl] at h
    | some l =>
      simp only [cellTilejsonUrl, hr, hl, Except.ok.injEq] at h
      exact ⟨reg, l, rfl, hl, h.symm⟩

theorem cellMosaicInfo_ok (env : DataApiEnv) (s s' : NbState)
    (h : (cellMosaicInfo env s).2 = .ok s') :
    ∃ info rc, env.infoResp = .ok info ∧ info.renderOptions[0]? = some rc ∧
      s' = { s with mosaic_info := some info, render_config := some rc } := by
  cases hi : s.item with
  | none => simp [cellMosaicInfo, hi] at h
  | some it =>
    cases he : env.infoResp with
    | error e => simp [cellMosaicInfo, hi, he] at h
    | ok info =>
      cases hrc : info.renderOptions[0]? with
      | none => simp [cellMosaicInfo, hi, he, hrc] at h
      | some rc =>
        simp only [cellMosaicInfo, hi, he, hrc, Except.ok.injEq] at h
        exact ⟨info, rc, rfl, hrc, h.symm⟩

theorem cellMosaicTiles_ok (env : DataApiEnv) (s s' : NbState)
    (h : (cellMosaicTiles env s).2 = .ok s') :
    ∃ tj t, env.mosaicTilejsonResp = .ok tj ∧ tj.tiles[0]? = some t ∧
      s' = { s with tiles := some t } := by
  cases hu : s.tilejson_url with
  | none => simp [cellMosaicTiles, hu] at h
  | some u =>
    cases hi : s.item with
    | none => simp [cellMosaicTiles, hu, hi] at h
    | some it =>
      cases hrc : s.render_config with
      | none => simp [cellMosaicTiles, hu, hi, hrc] at h
      | some rc =>
        cases he : env.mosaicTilejsonResp with
        | error e => simp [cellMosaicTiles, hu, hi, hrc, he] at h
        | ok tj =>
          cases ht : tj.tiles[0]? with
          | none => simp [cellMosaicTiles, hu, hi, hrc, he, ht] at h
          | some t =>
            simp only [cellMosaicTiles, hu, hi, hrc, he, ht, Except.ok.injEq] at h
            exact ⟨tj, t, rfl, ht, h.symm⟩

theorem cellMosaicMap_ok (centroidOf : Geom → Rat × Rat) (s s' : NbState)
    (h : (cellMosaicMap centroidOf s).2 = .ok s') :
    ∃ mv, s' = { s with m := some mv } := by
  cases ha : s.aoi with
  | none => simp [cellMosaicMap, ha] at h
  | some a =>
    cases ht : s.tiles with
    | none => simp [cellMosaicMap, ha, ht] at h
    | some t =>
      cases hrc : s.render_config with
      | none => simp [cellMosaicMap, ha, ht, hrc] at h
      | some rc =>
        simp only [cellMosaicMap, ha, ht, hrc, Except.ok.injEq] at h
        exact ⟨_, h.symm⟩

theorem mosaicWorkflow_fail_register (env : DataApiEnv) (centroidOf : Geom → Rat × Rat)
    (s : NbState) (sr : PystacSearch) (e : PyError)
    (hs : s.search = some sr) (he : env.registerResp = .error e) :
    mosaicWorkflow env centroidOf s =
      ([{ method := Method.post, url := registerUrl, body := some (getParameters sr) }],
       .error e) := by
  simp [mosaicWorkflow, seqCells, cellRegister, hs, he]

theorem mosaicWorkflow_fail_info (env : DataApiEnv) (centroidOf : Geom → Rat × Rat)
    (s : NbState) (sr : PystacSearch) (it : StacItem) (reg : RegisterResponse)
    (l : MosaicLink) (e : PyError)
    (hs : s.search = some sr) (hi : s.item = some it)
    (hr : env.registerResp = .ok reg) (hl : reg.links[1]? = some l)
    (he : env.infoResp = .error e) :
    mosaicWorkflow env centroidOf s =
      ([{ method := Method.post, url := registerUrl, body := some (getParameters sr) },
        { method := Method.get, url := mosaicInfoUrl,
          params := [("collection", it.collection_id)] }],
       .error e) := by
  simp [mosaicWorkflow, seqCells, cellRegister, cellTilejsonUrl, cellMosaicInfo,
    hs, hi, hr, hl, he]

theorem mosaicWorkflow_fail_tilejson (env : DataApiEnv) (centroidOf : Geom → Rat × Rat)
    (s : NbState) (sr : PystacSearch) (it : StacItem) (reg : RegisterResponse)
    (l : MosaicLink) (info : MosaicInfo) (rc : RenderOption) (e : PyError)
    (hs : s.search = some sr) (hi : s.item = some it)
    (hr : env.registerResp = .ok reg) (hl : reg.links[1]? = some l)
    (hinfo : env.infoResp = .ok info) (hrc : info.renderOptions[0]? = some rc)
    (he : env.mosaicTilejsonResp = .error e) :
    mosaicWorkflow env centroidOf s =
      ([{ method := Method.post, url := registerUrl, body := some (getParameters sr) },
        { method := Method.get, url := mosaicInfoUrl,
          params := [("collection", it.collection_id)] },
        { method := Method.get,
          url := l.href ++ "?collection=" ++ it.collection_id ++ "&" ++ rc.options }],
       .error e) := by
  simp [mosaicWorkflow, seqCells, cellRegister, cellTilejsonUrl, cellMosaicInfo,
    cellMosaicTiles, hs, hi, hr, hl, hinfo, hrc, he]

theorem mosaicWorkflow_success (env : DataApiEnv) (centroidOf : Geom → Rat × Rat)
    (s : NbState) (sr : PystacSearch) (it : StacItem) (a : Geom)
    (reg : RegisterResponse) (l : MosaicLink) (info : MosaicInfo) (rc : RenderOption)
    (tj : TileJSON) (t : String)
    (hs : s.search = some sr) (hi : s.item = some it) (ha : s.aoi = some a)
    (hr : env.registerResp = .ok reg) (hl : reg.links[1]? = some l)
    (hinfo : env.infoResp = .ok info) (hrc : info.renderOptions[0]? = some rc)
    (htj : env.mosaicTilejsonResp = .ok tj) (ht : tj.tiles[0]? = some t) :
    mosaicWorkflow env centroidOf s =
      ([{ method := Method.post, url := registerUrl, body := some (getParameters sr) },
        { method := Method.get, url := mosaicInfoUrl,
          params := [("collection", it.collection_id)] },
        { method := Method.get,
          url := l.href ++ "?collection=" ++ it.collection_id ++ "&" ++ rc.options }],
       .ok { s with
              registered := some reg,
              tilejson_url := some l.href,
              mosaic_info := some info,
              render_config := some rc,
              tiles := some t,
              m := some { location := ((centroidOf a).2, (centroidOf a).1),
                          zoomStart := 9, baseTiles := basemapUrl, attr := esriAttr,
                          layers := [{ tiles := t, attr := pcAttr,
                                       minZoom := some rc.minZoom }],
                          geojsons := [a] } }) := by
  simp [mosaicWorkflow, seqCells, cellRegister, cellTilejsonUrl, cellMosaicInfo,
    cellMosaicTiles, cellMosaicMap, hs, hi, ha, hr, hl, hinfo, hrc, htj, ht]

theorem chesFold_items (ds : List String) :
    ∀ st : ChesState,
      (ds.foldl (fun st dt => { st with search := some (chesSearchFor dt) }) st).items
        = st.items := by
  induction ds with
  | nil => intro st; rfl
  | cons d ds ih => intro st; simpa using ih { st with search := some (chesSearchFor d) }

theorem chesFold_search (ds : List String) :
    ∀ (st : ChesState) (dt : String), ds.getLast? = some dt →
      (ds.foldl (fun st dt => { st with search := some (chesSearchFor dt) }) st).search
        = some (chesSearchFor dt) := by
  induction ds with
  | nil => intro st dt h; simp at h
  | cons d ds ih =>
    intro st dt h
    cases ds with
    | nil =>
      simp only [List.getLast?_singleton, Option.some.injEq] at h
      subst h
      rfl
    | cons d2 ds2 =>
      have h2 : (d2 :: ds2).getLast? = some dt := by
        rw [← h, List.getLast?_cons_cons]
      simpa using ih { st with search := some (chesSearchFor d) } dt h2

theorem chesLoopState_items (ds : List String) (s : ChesState) :
    (chesLoopState ds s).items = some ItemsVal.emptyDict := by
  simpa [chesLoopState] using chesFold_items ds { s with items := some ItemsVal.emptyDict }

theorem chesLoopState_search (ds : List String) (s : ChesState) (dt : String)
    (h : ds.getLast? = some dt) :
    (chesLoopState ds s).search = some (chesSearchFor dt) := by
  simpa [chesLoopState] using
    chesFold_search ds { s with items := some ItemsVal.emptyDict } dt h

theorem chesItemsCell_eq (env : ChesEnv) (ds : List String) (s : ChesState) (dt : String)
    (h : ds.getLast? = some dt) :
    chesItemsCell env ds s =
      ([chesSearchFor dt],
       .ok { chesLoopState ds s with
              items := some (ItemsVal.itemList (env.searchResults (chesSearchFor dt))) }) := by
  have hs := chesLoopState_search ds s dt h
  simp [chesItemsCell, hs]

theorem class_names_eq (classes : List (String × Nat))
    (hd : (classes.map Prod.fst).Nodup) : class_names classes = classes :=
  pyDictOf_eq_self classes hd

theorem class_values_eq (classes : List (String × Nat))
    (hd : (classes.map Prod.fst).Nodup) (hv : (classes.map (fun p => p.2)).Nodup) :
    class_values classes = classes.map (fun p => (p.2, p.1)) := by
  rw [class_values, class_names_eq classes hd]
  apply pyDictOf_eq_self
  simpa [List.map_map, Function.comp] using hv

theorem class_values_get_of_mem (classes : List (String × Nat)) (d : String) (t : Nat)
    (hd : (classes.map Prod.fst).Nodup) (hv : (classes.map (fun p => p.2)).Nodup)
    (hm : (d, t) ∈ classes) :
    pyDictGet? (class_values classes) t = some d := by
  rw [class_values_eq classes hd hv]
  apply pyDictGet?_of_mem
  · simpa [List.map_map, Function.comp] using hv
  · exact List.mem_map_of_mem _ hm

theorem class_values_get_none (classes : List (String × Nat)) (t : Nat)
    (hd : (classes.map Prod.fst).Nodup) (hv : (classes.map (fun p => p.2)).Nodup)
    (hno : ∀ p ∈ classes, p.2 ≠ t) :
    pyDictGet? (class_values classes) t = none := by
  rw [class_values_eq classes hd hv]
  apply pyDictGet?_eq_none
  intro q hq
  obtain ⟨p, hp, rfl⟩ := List.mem_map.mp hq
  exact hno p hp

theorem chesLabels_get (classes : List (String × Nat)) (classmap : List (String × List Nat))
    (t : Nat) (h : t < cmapN classmap) :
    (chesLabels classes classmap)[t]? =
      some ((pyDictGet? (class_values classes) t).getD "nodata") := by
  simp [chesLabels, List.getElem?_range, h]

theorem chesClassmapCell_ok (env : ChesEnv) (s s' : ChesState)
    (h : (chesClassmapCell env s).2 = .ok s') :
    ∃ cm, env.classmapResp = .ok cm ∧ s' = { s with classmap := some cm } := by
  cases he : env.classmapResp with
  | error e => simp [chesClassmapCell, he] at h
  | ok cm =>
    simp only [chesClassmapCell, he, Except.ok.injEq] at h
    exact ⟨cm, rfl, h.symm⟩

theorem chesAssetHrefCell_ok (s s' : ChesState)
    (h : (chesAssetHrefCell s).2 = .ok s') :
    ∃ a, s' = { s with asset_href := some a } := by
  cases hi : s.items with
  | none => simp [chesAssetHrefCell, hi] at h
  | some iv =>
    cases iv with
    | emptyDict => simp [chesAssetHrefCell, hi] at h
    | itemList l =>
      cases h0 : l[0]? with
      | none => simp [chesAssetHrefCell, hi, h0] at h
      | some it =>
        cases ha : pyDictGet? it.assets "data" with
        | none => simp [chesAssetHrefCell, hi, h0, ha] at h
        | some a =>
          simp only [chesAssetHrefCell, hi, h0, ha, Except.ok.injEq] at h
          exact ⟨a.href, h.symm⟩

/-- C2 counterexample: in the footprint browser, running the cell with a
single dropdown selection already mutates the Map object three times (layout
width, adding the layer, recentering in the callback), so it is not the case
that no object is mutated by more than one operation. -/
theorem browser_map_mutated_repeatedly :
    mutCount WidgetObj.mapObj (browserScript [browseItemRec]) = 3 ∧
    ¬ mutCount WidgetObj.mapObj (browserScript [browseItemRec]) ≤ 1 := by
  decide

/-- C2 (amended): execution is purely sequential, but the Map and the GeoJSON
layer are shared mutable state: the script is the setup followed by one
callback block per dropdown selection, the Map object is mutated twice during
setup (layout width, adding the layer) and once per selection (recentering),
the layer object once per selection (its data), and fetched items are never
mutated. -/
theorem browser_mutation_profile (sel : List StacItem) :
    browserScript sel = browserSetup ++ browseOps sel ∧
    mutCount WidgetObj.mapObj (browserScript sel) = 2 + sel.length ∧
    mutCount WidgetObj.layerObj (browserScript sel) = sel.length ∧
    mutCount WidgetObj.itemObj (browserScript sel) = 0 := by
  have hm : mutCount WidgetObj.mapObj browserSetup = 2 := rfl
  have hl : mutCount WidgetObj.layerObj browserSetup = 0 := rfl
  have hi : mutCount WidgetObj.itemObj browserSetup = 0 := rfl
  refine ⟨rfl, ?_, ?_, ?_⟩
  · rw [browserScript, mutCount_append, (mutCount_browseOps sel).1, hm]
  · rw [browserScript, mutCount_append, (mutCount_browseOps sel).2.1, hl, Nat.zero_add]
  · rw [browserScript, mutCount_append, (mutCount_browseOps sel).2.2, hi]

/-- C8: in the Chesapeake notebook, the loop over the datetimes list only
rebinds the search variable; item retrieval happens exactly once, after the
loop, on the search constructed in the final iteration, and the initial
binding of items to an empty dict is still in place (never populated) when it
is overwritten by the retrieved item list. -/
theorem chesapeake_single_search_execution (env : ChesEnv) (ds : List String)
    (s : ChesState) (dt : String) (h : ds.getLast? = some dt) :
    (chesLoopState ds s).items = some ItemsVal.emptyDict ∧
    (chesLoopState ds s).search = some (chesSearchFor dt) ∧
    chesItemsCell env ds s =
      ([chesSearchFor dt],
       .ok { chesLoopState ds s with
              items := some (ItemsVal.itemList (env.searchResults (chesSearchFor dt))) }) :=
  ⟨chesLoopState_items ds s, chesLoopState_search ds s dt h, chesItemsCell_eq env ds s dt h⟩

/-- C8 witness: the notebook runs with datetimes = ["2013"]. -/
theorem chesapeake_single_search_execution_witness :
    chesDatetimes.getLast? = some "2013" ∧
    ((chesLoopState chesDatetimes {}).items = some ItemsVal.emptyDict ∧
     (chesLoopState chesDatetimes {}).search = some (chesSearchFor "2013") ∧
     chesItemsCell chesEnvW chesDatetimes {} =
       ([chesSearchFor "2013"],
        .ok { chesLoopState chesDatetimes {} with
               items := some (ItemsVal.itemList (chesEnvW.searchResults (chesSearchFor "2013"))) })) :=
  ⟨rfl, chesapeake_single_search_execution chesEnvW chesDatetimes {} "2013" rfl⟩

/-- C1 counterexample: on the responses recorded in the notebook, a single
successful execution of the mosaic workflow issues three HTTP requests, not
the two (one POST, one GET) that the four-step description implies, and the
TileJSON GET is not issued at the bare href of the registration-response link:
its URL is that href with a query string appended. -/
theorem mosaic_workflow_not_four_steps :
    (mosaicWorkflow envRec centroidW stateRec).1.length = 3 ∧
    ¬ (mosaicWorkflow envRec centroidW stateRec).1.length = 2 ∧
    ((mosaicWorkflow envRec centroidW stateRec).1.map (fun rq => rq.url)) =
      [registerUrl, mosaicInfoUrl,
       mosaicTilejsonHrefRec ++ "?collection=sentinel-2-l2a&" ++ natColorOptionsRec] ∧
    ¬ mosaicTilejsonHrefRec ++ "?collection=sentinel-2-l2a&" ++ natColorOptionsRec
        = mosaicTilejsonHrefRec := by
  refine ⟨rfl, by decide, rfl, by decide⟩

/-- C1 (amended): a single successful execution of the mosaic workflow
performs five sequential steps with no branching: (1) POST the search
parameters to the mosaic register endpoint; (2) GET the mosaic info endpoint
for the collection and take the first render option; (3) GET a TileJSON at
the href of the second link of the registration response with the collection
id and the render-option string appended as a query string; (4) derive the
tile URL template as the first element of the returned TileJSON tiles array;
(5) feed that template unchanged to the map widget as a tile layer. -/
theorem mosaic_workflow_steps (env : DataApiEnv) (centroidOf : Geom → Rat × Rat)
    (s : NbState) (sr : PystacSearch) (it : StacItem) (a : Geom)
    (reg : RegisterResponse) (l : MosaicLink) (info : MosaicInfo) (rc : RenderOption)
    (tj : TileJSON) (t : String)
    (hs : s.search = some sr) (hi : s.item = some it) (ha : s.aoi = some a)
    (hr : env.registerResp = .ok reg) (hl : reg.links[1]? = some l)
    (hinfo : env.infoResp = .ok info) (hrc : info.renderOptions[0]? = some rc)
    (htj : env.mosaicTilejsonResp = .ok tj) (ht : tj.tiles[0]? = some t) :
    mosaicWorkflow env centroidOf s =
      ([{ method := Method.post, url := registerUrl, body := some (getParameters sr) },
        { method := Method.get, url := mosaicInfoUrl,
          params := [("collection", it.collection_id)] },
        { method := Method.get,
          url := l.href ++ "?collection=" ++ it.collection_id ++ "&" ++ rc.options }],
       .ok { s with
              registered := some reg,
              tilejson_url := some l.href,
              mosaic_info := some info,
              render_config := some rc,
              tiles := some t,
              m := some { location := ((centroidOf a).2, (centroidOf a).1),
                          zoomStart := 9, baseTiles := basemapUrl, attr := esriAttr,
                          layers := [{ tiles := t, attr := pcAttr,
                                       minZoom := some rc.minZoom }],
                          geojsons := [a] } }) :=
  mosaicWorkflow_success env centroidOf s sr it a reg l info rc tj t
    hs hi ha hr hl hinfo hrc htj ht

/-- C1 witness: the amended statement evaluated on the recorded responses. -/
theorem mosaic_workflow_steps_witness :
    stateRec.search = some searchRec ∧
    mosaicWorkflow envRec centroidW stateRec =
      ([{ method := Method.post, url := registerUrl, body := some (getParameters searchRec) },
        { method := Method.get, url := mosaicInfoUrl,
          params := [("collection", itemRec.collection_id)] },
        { method := Method.get,
          url := mosaicTilejsonHrefRec ++ "?collection=" ++ itemRec.collection_id
                   ++ "&" ++ renderOptionRec.options }],
       .ok { stateRec with
              registered := some registeredRec,
              tilejson_url := some mosaicTilejsonHrefRec,
              mosaic_info := some mosaicInfoRec,
              render_config := some renderOptionRec,
              tiles := some mosaicTilesTemplateRec,
              m := some { location := ((centroidW aoiGeom).2, (centroidW aoiGeom).1),
                          zoomStart := 9, baseTiles := basemapUrl, attr := esriAttr,
                          layers := [{ tiles := mosaicTilesTemplateRec, attr := pcAttr,
                                       minZoom := some renderOptionRec.minZoom }],
                          geojsons := [aoiGeom] } }) :=
  ⟨rfl,
   mosaic_workflow_steps envRec centroidW stateRec searchRec itemRec aoiGeom
     registeredRec
     { rel := "tilejson", type := "application/json", href := mosaicTilejsonHrefRec }
     mosaicInfoRec renderOptionRec mosaicTilejsonRec mosaicTilesTemplateRec
     rfl rfl rfl rfl rfl rfl rfl rfl rfl⟩

/-- C3: no error handling exists: at every embedded request site, a failed
request propagates out of the cell as the untouched error, the request is
issued exactly once (no retry), and no later step of the cell or workflow
executes. -/
theorem http_failure_propagates :
    (∀ (env : DataApiEnv) (c : Geom → Rat × Rat) (s : NbState) (sr : PystacSearch)
        (e : PyError), s.search = some sr → env.registerResp = .error e →
       mosaicWorkflow env c s =
         ([{ method := Method.post, url := registerUrl, body := some (getParameters sr) }],
          .error e)) ∧
    (∀ (env : DataApiEnv) (c : Geom → Rat × Rat) (s : NbState) (sr : PystacSearch)
        (it : StacItem) (reg : RegisterResponse) (l : MosaicLink) (e : PyError),
       s.search = some sr → s.item = some it →
       env.registerResp = .ok reg → reg.links[1]? = some l →
       env.infoResp = .error e →
       mosaicWorkflow env c s =
         ([{ method := Method.post, url := registerUrl, body := some (getParameters sr) },
           { method := Method.get, url := mosaicInfoUrl,
             params := [("collection", it.collection_id)] }],
          .error e)) ∧
    (∀ (env : DataApiEnv) (c : Geom → Rat × Rat) (s : NbState) (sr : PystacSearch)
        (it : StacItem) (reg : RegisterResponse) (l : MosaicLink) (info : MosaicInfo)
        (rc : RenderOption) (e : PyError),
       s.search = some sr → s.item = some it →
       env.registerResp = .ok reg → reg.links[1]? = some l →
       env.infoResp = .ok info → info.renderOptions[0]? = some rc →
       env.mosaicTilejsonResp = .error e →
       mosaicWorkflow env c s =
         ([{ method := Method.post, url := registerUrl, body := some (getParameters sr) },
           { method := Method.get, url := mosaicInfoUrl,
             params := [("collection", it.collection_id)] },
           { method := Method.get,
             url := l.href ++ "?collection=" ++ it.collection_id ++ "&" ++ rc.options }],
          .error e)) ∧
    (∀ (env : DataApiEnv) (s : NbState) (e : PyError), env.itemResp = .error e →
       cellFetchItem env s = ([{ method := Method.get, url := stacItemUrl }], .error e)) ∧
    (∀ (env : DataApiEnv) (s : NbState) (it : StacItem) (a : Asset) (e : PyError),
       s.item = some it → pyDictGet? it.assets "tilejson" = some a →
       env.itemTilejsonResp = .error e →
       cellFetchTilejson env s = ([{ method := Method.get, url := a.href }], .error e)) ∧
    (∀ (env : ChesEnv) (s : ChesState) (e : PyError), env.classmapResp = .error e →
       chesClassmapCell env s = ([{ method := Method.get, url := classmapUrl }], .error e)) := by
  refine ⟨?_, ?_, ?_, ?_, ?_, ?_⟩
  · intro env c s sr e hs he
    exact mosaicWorkflow_fail_register env c s sr e hs he
  · intro env c s sr it reg l e hs hi hr hl he
    exact mosaicWorkflow_fail_info env c s sr it reg l e hs hi hr hl he
  · intro env c s sr it reg l info rc e hs hi hr hl hinfo hrc he
    exact mosaicWorkflow_fail_tilejson env c s sr it reg l info rc e hs hi hr hl hinfo hrc he
  · intro env s e he
    simp [cellFetchItem, he]
  · intro env s it a e hi ha he
    simp [cellFetchTilejson, hi, ha, he]
  · intro env s e he
    simp [chesClassmapCell, he]

/-- C3 witness: concrete failing environments for the register request, the
item request, and the classmap request. -/
theorem http_failure_propagates_witness :
    (stateRec.search = some searchRec ∧
     mosaicWorkflow envFailRegister centroidW stateRec =
       ([{ method := Method.post, url := registerUrl, body := some (getParameters searchRec) }],
        .error (.httpError "connection reset"))) ∧
    cellFetchItem envFailItem {} =
      ([{ method := Method.get, url := stacItemUrl }], .error (.httpError "connection reset")) ∧
    chesClassmapCell chesEnvFail {} =
      ([{ method := Method.get, url := classmapUrl }], .error (.httpError "gateway timeout")) :=
  ⟨⟨rfl, http_failure_propagates.1 envFailRegister centroidW stateRec searchRec
          (.httpError "connection reset") rfl rfl⟩,
   http_failure_propagates.2.2.2.1 envFailItem {} (.httpError "connection reset") rfl,
   http_failure_propagates.2.2.2.2.2 chesEnvFail {} (.httpError "gateway timeout") rfl⟩

/-- C4: a fetched TileJSON is read-only configuration: no cell executed after
it is parsed changes the binding holding it, the template bound from it is
exactly the first element of its tiles array and is handed unchanged to the
tile layer, and the recorded template carries the z/x/y placeholders. -/
theorem tilejson_read_only :
    (∀ (env : DataApiEnv) (centroidOf : Geom → Rat × Rat) (s s' : NbState),
      ((cellTilesBind s).2 = .ok s' → s'.r = s.r) ∧
      ((cellItemMap s).2 = .ok s' → s'.r = s.r) ∧
      ((cellSearch s).2 = .ok s' → s'.r = s.r) ∧
      ((cellRegister env s).2 = .ok s' → s'.r = s.r) ∧
      ((cellTilejsonUrl s).2 = .ok s' → s'.r = s.r) ∧
      ((cellMosaicInfo env s).2 = .ok s' → s'.r = s.r) ∧
      ((cellMosaicTiles env s).2 = .ok s' → s'.r = s.r) ∧
      ((cellMosaicMap centroidOf s).2 = .ok s' → s'.r = s.r)) ∧
    (∀ (s s' : NbState) (tj : TileJSON), s.r = some tj →
       (cellTilesBind s).2 = .ok s' → s'.tiles = tj.tiles[0]?) ∧
    (∀ (s s' : NbState) (t : String) (it : StacItem) (b0 b1 b2 b3 : Rat) (rest : List Rat),
       s.item = some it → it.bbox = b0 :: b1 :: b2 :: b3 :: rest → s.tiles = some t →
       (cellItemMap s).2 = .ok s' →
       ∃ mv, s'.m = some mv ∧ mv.layers = [{ tiles := t, attr := pcAttr }]) ∧
    strContains itemTilesTemplateRec placeholderZXY ∧
    itemTilejsonRec.tiles[0]? = some itemTilesTemplateRec := by
  refine ⟨?_, ?_, ?_, by decide, rfl⟩
  · intro env centroidOf s s'
    refine ⟨?_, ?_, ?_, ?_, ?_, ?_, ?_, ?_⟩
    · intro h; obtain ⟨tj, t, _, _, rfl⟩ := cellTilesBind_ok s s' h; rfl
    · intro h; obtain ⟨mv, rfl⟩ := cellItemMap_ok s s' h; rfl
    · intro h; rw [cellSearch_ok s s' h]
    · intro h; obtain ⟨reg, _, rfl⟩ := cellRegister_ok env s s' h; rfl
    · intro h; obtain ⟨reg, l, _, _, rfl⟩ := cellTilejsonUrl_ok s s' h; rfl
    · intro h; obtain ⟨info, rc, _, _, rfl⟩ := cellMosaicInfo_ok env s s' h; rfl
    · intro h; obtain ⟨tj, t, _, _, rfl⟩ := cellMosaicTiles_ok env s s' h; rfl
    · intro h; obtain ⟨mv, rfl⟩ := cellMosaicMap_ok centroidOf s s' h; rfl
  · intro s s' tj hr h
    obtain ⟨tj2, t, hr2, ht2, rfl⟩ := cellTilesBind_ok s s' h
    rw [hr] at hr2
    injection hr2 with h2
    subst h2
    exact ht2.symm
  · intro s s' t it b0 b1 b2 b3 rest hi hb ht h
    simp only [cellItemMap, hi, hb, ht, Except.ok.injEq] at h
    subst h
    exact ⟨_, rfl, rfl⟩

/-- C4 witness: cell 6 on the recorded TileJSON binds exactly its first tiles
element. -/
theorem tilejson_read_only_witness :
    stateRec.r = some itemTilejsonRec ∧
    (cellTilesBind stateRec).2 = .ok { stateRec with tiles := some itemTilesTemplateRec } ∧
    ({ stateRec with tiles := some itemTilesTemplateRec } : NbState).tiles
      = itemTilejsonRec.tiles[0]? :=
  ⟨rfl, rfl,
   tilejson_read_only.2.1 stateRec { stateRec with tiles := some itemTilesTemplateRec }
     itemTilejsonRec rfl rfl⟩

/-- C5: the render-options record is pass-through configuration: whatever
string its options field holds is spliced verbatim, unparsed and unvalidated,
into the query string of the TileJSON request, and the record itself is the
first render option of the info response, unmodified. -/
theorem render_options_passthrough :
    (∀ (env : DataApiEnv) (s : NbState) (u : String) (it : StacItem) (rc : RenderOption),
       s.tilejson_url = some u → s.item = some it → s.render_config = some rc →
       (cellMosaicTiles env s).1 =
         [{ method := Method.get,
            url := u ++ "?collection=" ++ it.collection_id ++ "&" ++ rc.options }]) ∧
    (∀ (env : DataApiEnv) (s s' : NbState) (info : MosaicInfo),
       env.infoResp = .ok info → (cellMosaicInfo env s).2 = .ok s' →
       s'.render_config = info.renderOptions[0]?) := by
  constructor
  · intro env s u it rc hu hi hrc
    simp [cellMosaicTiles, hu, hi, hrc]
  · intro env s s' info he h
    obtain ⟨info2, rc, he2, hrc, rfl⟩ := cellMosaicInfo_ok env s s' h
    rw [he] at he2
    injection he2 with h2
    subst h2
    exact hrc.symm

/-- C5 witness: the recorded render option spliced into the TileJSON URL. -/
theorem render_options_passthrough_witness :
    stateMidRec.render_config = some renderOptionRec ∧
    (cellMosaicTiles envRec stateMidRec).1 =
      [{ method := Method.get,
         url := mosaicTilejsonHrefRec ++ "?collection=" ++ itemRec.collection_id
                  ++ "&" ++ renderOptionRec.options }] :=
  ⟨rfl,
   render_options_passthrough.1 envRec stateMidRec mosaicTilejsonHrefRec itemRec
     renderOptionRec rfl rfl rfl⟩

/-- C6: the registered search handle is carried only inside the href the
client takes from the links list of the registration response: the TileJSON
request URL is that href extended by a query string, so whenever the handle
occurs in the href it occurs in the tile-related URL requested after
registration. -/
theorem search_handle_in_tile_urls (env : DataApiEnv) (centroidOf : Geom → Rat × Rat)
    (s : NbState) (sr : PystacSearch) (it : StacItem) (a : Geom)
    (reg : RegisterResponse) (l : MosaicLink) (info : MosaicInfo) (rc : RenderOption)
    (tj : TileJSON) (t : String)
    (hs : s.search = some sr) (hi : s.item = some it) (ha : s.aoi = some a)
    (hr : env.registerResp = .ok reg) (hl : reg.links[1]? = some l)
    (hinfo : env.infoResp = .ok info) (hrc : info.renderOptions[0]? = some rc)
    (htj : env.mosaicTilejsonResp = .ok tj) (ht : tj.tiles[0]? = some t)
    (hhandle : strContains l.href reg.searchid) :
    ((mosaicWorkflow env centroidOf s).1.map (fun rq => rq.url))[2]? =
      some (l.href ++ "?collection=" ++ it.collection_id ++ "&" ++ rc.options) ∧
    strContains (l.href ++ "?collection=" ++ it.collection_id ++ "&" ++ rc.options)
      reg.searchid := by
  have hw := mosaicWorkflow_success env centroidOf s sr it a reg l info rc tj t
    hs hi ha hr hl hinfo hrc htj ht
  constructor
  · simp [hw]
  · exact strContains_append_left (strContains_append_left
      (strContains_append_left (strContains_append_left hhandle)))

/-- C6 witness: the recorded handle occurs in the link href, in the TileJSON
request URL, and in the tile URL template handed to the widget. -/
theorem search_handle_in_tile_urls_witness :
    strContains mosaicTilejsonHrefRec searchidRec ∧
    strContains (mosaicTilejsonHrefRec ++ "?collection=" ++ itemRec.collection_id
                   ++ "&" ++ renderOptionRec.options) registeredRec.searchid ∧
    strContains mosaicTilesTemplateRec searchidRec :=
  ⟨by decide,
   (search_handle_in_tile_urls envRec centroidW stateRec searchRec itemRec aoiGeom
     registeredRec
     { rel := "tilejson", type := "application/json", href := mosaicTilejsonHrefRec }
     mosaicInfoRec renderOptionRec mosaicTilejsonRec mosaicTilesTemplateRec
     rfl rfl rfl rfl rfl rfl rfl rfl rfl (by decide)).2,
   by decide⟩

/-- C7: catalog items are immutable once fetched: every cell executed after
the item binding of the data-api notebook leaves that binding unchanged, no
operation of the footprint browser mutates an item, and the Chesapeake cells
executed after the item list is bound leave it unchanged. -/
theorem catalog_items_immutable :
    (∀ (env : DataApiEnv) (centroidOf : Geom → Rat × Rat) (s s' : NbState),
      ((cellDisplayPreview s).2 = .ok s' → s'.item = s.item) ∧
      ((cellShowTilejsonHref s).2 = .ok s' → s'.item = s.item) ∧
      ((cellFetchTilejson env s).2 = .ok s' → s'.item = s.item) ∧
      ((cellTilesBind s).2 = .ok s' → s'.item = s.item) ∧
      ((cellItemMap s).2 = .ok s' → s'.item = s.item) ∧
      ((cellSearch s).2 = .ok s' → s'.item = s.item) ∧
      ((cellRegister env s).2 = .ok s' → s'.item = s.item) ∧
      ((cellTilejsonUrl s).2 = .ok s' → s'.item = s.item) ∧
      ((cellMosaicInfo env s).2 = .ok s' → s'.item = s.item) ∧
      ((cellMosaicTiles env s).2 = .ok s' → s'.item = s.item) ∧
      ((cellMosaicMap centroidOf s).2 = .ok s' → s'.item = s.item)) ∧
    (∀ sel : List StacItem, mutCount WidgetObj.itemObj (browserScript sel) = 0) ∧
    (∀ s s' : ChesState, (chesAssetHrefCell s).2 = .ok s' → s'.items = s.items) ∧
    (∀ (env : ChesEnv) (s s' : ChesState),
       (chesClassmapCell env s).2 = .ok s' → s'.items = s.items) := by
  refine ⟨?_, ?_, ?_, ?_⟩
  · intro env centroidOf s s'
    refine ⟨?_, ?_, ?_, ?_, ?_, ?_, ?_, ?_, ?_, ?_, ?_⟩
    · intro h; rw [cellDisplayPreview_ok s s' h]
    · intro h; rw [cellShowTilejsonHref_ok s s' h]
    · intro h; obtain ⟨tj, _, rfl⟩ := cellFetchTilejson_ok env s s' h; rfl
    · intro h; obtain ⟨tj, t, _, _, rfl⟩ := cellTilesBind_ok s s' h; rfl
    · intro h; obtain ⟨mv, rfl⟩ := cellItemMap_ok s s' h; rfl
    · intro h; rw [cellSearch_ok s s' h]
    · intro h; obtain ⟨reg, _, rfl⟩ := cellRegister_ok env s s' h; rfl
    · intro h; obtain ⟨reg, l, _, _, rfl⟩ := cellTilejsonUrl_ok s s' h; rfl
    · intro h; obtain ⟨info, rc, _, _, rfl⟩ := cellMosaicInfo_ok env s s' h; rfl
    · intro h; obtain ⟨tj, t, _, _, rfl⟩ := cellMosaicTiles_ok env s s' h; rfl
    · intro h; obtain ⟨mv, rfl⟩ := cellMosaicMap_ok centroidOf s s' h; rfl
  · intro sel
    have hsetup : mutCount WidgetObj.itemObj browserSetup = 0 := rfl
    rw [browserScript, mutCount_append, (mutCount_browseOps sel).2.2, hsetup]
  · intro s s' h; obtain ⟨a, rfl⟩ := chesAssetHrefCell_ok s s' h; rfl
  · intro env s s' h; obtain ⟨cm, _, rfl⟩ := chesClassmapCell_ok env s s' h; rfl

/-- C7 witness: the classmap cell leaves the Chesapeake item list unchanged. -/
theorem catalog_items_immutable_witness :
    (chesClassmapCell chesEnvW chesState0).2 = .ok chesStateClassmap ∧
    chesStateClassmap.items = chesState0.items :=
  ⟨rfl, catalog_items_immutable.2.2.2 chesEnvW chesState0 chesStateClassmap rfl⟩

/-- C10: the single-item map is centered on the arithmetic midpoint of the
item bounding box with the coordinate order reversed relative to the bbox:
location = ((bbox1 + bbox3) / 2, (bbox0 + bbox2) / 2), latitude first,
from a bbox stored longitude-first. -/
theorem item_map_center_formula (s : NbState) (it : StacItem) (t : String)
    (b0 b1 b2 b3 : Rat) (rest : List Rat)
    (hi : s.item = some it) (hb : it.bbox = b0 :: b1 :: b2 :: b3 :: rest)
    (ht : s.tiles = some t) :
    (cellItemMap s).2 = .ok
      { s with m := some {
          location := ((b1 + b3) / 2, (b0 + b2) / 2), zoomStart := 11,
          baseTiles := basemapUrl, attr := esriAttr,
          layers := [{ tiles := t, attr := pcAttr }], geojsons := [] } } := by
  simp [cellItemMap, hi, hb, ht]

/-- C10 witness: on the recorded bounding box the center evaluates to the
latitude/longitude pair shown in the notebook output. -/
theorem item_map_center_formula_witness :
    stateRec.item = some itemRec ∧
    (cellItemMap stateRec).2 = .ok
      { stateRec with m := some {
          location := (((8.95381176 : Rat) + 9.95039568) / 2,
                       ((31.17569761 : Rat) + 32.17948101) / 2),
          zoomStart := 11, baseTiles := basemapUrl, attr := esriAttr,
          layers := [{ tiles := itemTilesTemplateRec, attr := pcAttr }], geojsons := [] } } ∧
    ((8.95381176 : Rat) + 9.95039568) / 2 = 9.45210372 ∧
    ((31.17569761 : Rat) + 32.17948101) / 2 = 31.67758931 :=
  ⟨rfl,
   item_map_center_formula stateRec itemRec itemTilesTemplateRec
     31.17569761 8.95381176 32.17948101 9.95039568 [] rfl rfl rfl,
   by norm_num, by norm_num⟩

/-- C9: for every tick value below cmap.N, the colorbar label is the
description of the class whose value equals the tick when such a class exists
(with descriptions and values pairwise distinct, class_values inverts
class_names), and the string nodata for every tick that is the value of no
class. -/
theorem chesapeake_colorbar_labels (classes : List (String × Nat))
    (classmap : List (String × List Nat))
    (hd : (classes.map Prod.fst).Nodup) (hv : (classes.map (fun p => p.2)).Nodup) :
    (∀ (t : Nat) (d : String), t < cmapN classmap → (d, t) ∈ classes →
       (chesLabels classes classmap)[t]? = some d) ∧
    (∀ t : Nat, t < cmapN classmap → (∀ p ∈ classes, p.2 ≠ t) →
       (chesLabels classes classmap)[t]? = some "nodata") ∧
    (∀ (d : String) (t : Nat), (d, t) ∈ classes →
       pyDictGet? (class_names classes) d = some t ∧
       pyDictGet? (class_values classes) t = some d) := by
  refine ⟨?_, ?_, ?_⟩
  · intro t d hlt hm
    rw [chesLabels_get classes classmap t hlt,
      class_values_get_of_mem classes d t hd hv hm]
    rfl
  · intro t hlt hno
    rw [chesLabels_get classes classmap t hlt,
      class_values_get_none classes t hd hv hno]
    rfl
  · intro d t hm
    constructor
    · rw [class_names_eq classes hd]
      exact pyDictGet?_of_mem classes d t hd hm
    · exact class_values_get_of_mem classes d t hd hv hm

/-- C9 witness: on the recorded classes and classmap, cmap.N = 19, ticks 0 and
18 are labeled nodata even though the classmap colors keys 0 and 255, and the
class ticks carry their descriptions. -/
theorem chesapeake_colorbar_labels_witness :
    ((chesClasses.map Prod.fst).Nodup ∧ (chesClasses.map (fun p => p.2)).Nodup) ∧
    (chesLabels chesClasses chesClassmap)[0]? = some "nodata" ∧
    (chesLabels chesClasses chesClassmap)[18]? = some "nodata" ∧
    (chesLabels chesClasses chesClassmap)[1]? = some "Impervious Roads" ∧
    (chesLabels chesClasses chesClassmap)[17]? = some "Pasture/Hay" ∧
    cmapN chesClassmap = 19 ∧
    pyDictGet? (pyDictOf chesClassmap) "0" = some [0, 0, 0, 0] ∧
    pyDictGet? (pyDictOf chesClassmap) "255" = some [0, 0, 0, 0] :=
  ⟨⟨by decide, by decide⟩,
   (chesapeake_colorbar_labels chesClasses chesClassmap (by decide) (by decide)).2.1
     0 (by decide) (by decide),
   (chesapeake_colorbar_labels chesClasses chesClassmap (by decide) (by decide)).2.1
     18 (by decide) (by decide),
   (chesapeake_colorbar_labels chesClasses chesClassmap (by decide) (by decide)).1
     1 "Impervious Roads" (by decide) (by decide),
   (chesapeake_colorbar_labels chesClasses chesClassmap (by decide) (by decide)).1
     17 "Pasture/Hay" (by decide) (by decide),
   by decide, by decide, by decide⟩
